import Mathlib

/-! Verification of the waggle-dance DAG task scheduler core.

The definitions below are a shallow embedding of the TypeScript source:
`AgentPacket.ts` (packet protocol), `mapPacketToStatus.ts` (status mapper
and the `WaggleDanceMachine.run` orchestrator), and the `TaskExecutor`
class (`startFirstTask`).  JavaScript `Set<string>` becomes a duplicate-free
insertion (`addCompleted`), `Record<string, T>` becomes an association
list with overwrite (`insertResult`), and the asynchronous callbacks of the
scheduling loop become explicit state-transforming functions. -/

namespace WaggleDance

/-! Packet protocol, from AgentPacket.ts.  The tag set is the closed union
`AgentPacketType` handled by the status-mapper switch (which also covers the
retriever and chat-model lifecycle tags). -/

inductive AgentPacketType where
  | handleAgentEnd
  | done
  | error
  | handleChainError
  | handleLLMError
  | handleRetrieverError
  | handleAgentError
  | handleLLMStart
  | t
  | handleLLMEnd
  | handleChainEnd
  | handleChainStart
  | handleToolEnd
  | handleToolStart
  | handleAgentAction
  | handleText
  | requestHumanInput
  | starting
  | working
  | idle
  | handleToolError
  | handleRetrieverStart
  | handleRetrieverEnd
  | handleChatModelStart
  | handleChatModelEnd
  deriving DecidableEq, Repr

inductive ErrorSeverity where
  | warn
  | human
  | fatal
  deriving DecidableEq, Repr

/-- The AgentPacket tagged union of AgentPacket.ts, with each variant's
payload modelled by strings (ChainValues as an association list). -/
inductive AgentPacket where
  | handleLLMStart
  | t (tok : String)
  | handleLLMEnd (output : String)
  | handleLLMError (err : String)
  | handleChainEnd (outputs : List (String × String))
  | handleChainError (err : String)
  | handleChainStart
  | handleToolEnd (output : String)
  | handleToolError (err : String)
  | handleToolStart (tool : String) (input : String)
  | handleAgentAction (action : String)
  | handleAgentEnd (value : String)
  | handleText (text : String)
  | handleRetrieverError (err : String)
  | handleAgentError (err : String)
  | done (value : String)
  | error (severity : ErrorSeverity) (message : String)
  | requestHumanInput (reason : String)
  | starting (nodeId : String)
  | working (nodeId : String)
  | idle (nodeId : String)
  deriving DecidableEq, Repr

/-- The `type` discriminant of a packet. -/
def AgentPacket.type : AgentPacket → AgentPacketType
  | .handleLLMStart => .handleLLMStart
  | .t _ => .t
  | .handleLLMEnd _ => .handleLLMEnd
  | .handleLLMError _ => .handleLLMError
  | .handleChainEnd _ => .handleChainEnd
  | .handleChainError _ => .handleChainError
  | .handleChainStart => .handleChainStart
  | .handleToolEnd _ => .handleToolEnd
  | .handleToolError _ => .handleToolError
  | .handleToolStart _ _ => .handleToolStart
  | .handleAgentAction _ => .handleAgentAction
  | .handleAgentEnd _ => .handleAgentEnd
  | .handleText _ => .handleText
  | .handleRetrieverError _ => .handleRetrieverError
  | .handleAgentError _ => .handleAgentError
  | .done _ => .done
  | .error _ _ => .error
  | .requestHumanInput _ => .requestHumanInput
  | .starting _ => .starting
  | .working _ => .working
  | .idle _ => .idle

/-- AgentPacketFinishedTypes of AgentPacket.ts, in source order. -/
def AgentPacketFinishedTypes : List AgentPacketType :=
  [.handleAgentEnd, .done, .error, .handleChainError, .handleLLMError,
   .handleRetrieverError, .handleAgentError]

/-- Membership in the finishing set (the Set built from
AgentPacketFinishedTypes). -/
def isAgentPacketFinishedType (ty : AgentPacketType) : Bool :=
  AgentPacketFinishedTypes.contains ty

/-- Array.prototype.findLast: the last element satisfying the predicate. -/
def listFindLast {α : Type} (p : α → Bool) : List α → Option α
  | [] => none
  | a :: l =>
    match listFindLast p l with
    | some b => some b
    | none => if p a then some a else none

/-- findFinishPacket of AgentPacket.ts: the last finishing packet, or a
synthetic fatal error packet when none exists. -/
def findFinishPacket (packets : List AgentPacket) : AgentPacket :=
  match listFindLast (fun packet => isAgentPacketFinishedType packet.type) packets with
  | some packet => packet
  | none =>
      .error .fatal
        ("No result packet found in " ++ toString packets.length ++ " packets")

/-- The TaskStatus enum consumed by mapPacketToStatus.ts. -/
inductive TaskStatus where
  | idle
  | working
  | wait
  | done
  | error
  deriving DecidableEq, Repr

/-- mapPacketTypeToStatus of mapPacketToStatus.ts, case for case in switch
order (`undefined` is `none`); the duplicated chat-model/retriever cases of
the source collapse to their first occurrence, which is what the switch
evaluates. -/
def mapPacketTypeToStatus : Option AgentPacketType → TaskStatus
  | some .done => .done
  | some .handleAgentEnd => .done
  | some .handleChainEnd => .done
  | some .error => .error
  | some .handleLLMError => .error
  | some .handleChainError => .error
  | some .handleToolError => .error
  | some .handleAgentError => .error
  | some .working => .working
  | some .t => .working
  | some .handleLLMStart => .working
  | some .handleChainStart => .working
  | some .handleToolStart => .working
  | some .handleAgentAction => .working
  | some .handleRetrieverError => .working
  | some .handleText => .working
  | some .handleToolEnd => .working
  | some .starting => .working
  | some .handleLLMEnd => .working
  | some .handleRetrieverStart => .working
  | some .handleRetrieverEnd => .working
  | some .handleChatModelEnd => .working
  | some .handleChatModelStart => .working
  | some .requestHumanInput => .wait
  | some .idle => .idle
  | none => .idle

/-! Graph model, from DAG.ts as used by WaggleDanceMachine. -/

structure DAGNode where
  id : String
  name : String
  act : String
  context : String
  deriving DecidableEq, Repr

structure DAGEdge where
  sId : String
  tId : String
  deriving DecidableEq, Repr

structure DAG where
  nodes : List DAGNode
  edges : List DAGEdge
  deriving DecidableEq, Repr

/-- rootPlanId of WaggleDanceMachine.ts. -/
def rootPlanId : String := "👸🐝"

/-- initialNodes of WaggleDanceMachine.ts: the synthetic root node. -/
def initialNodes (goal : String) : List DAGNode :=
  [⟨rootPlanId, "👸🐝 Queen Bee", "Planning how to achieve your goal", goal⟩]

/-- initialEdges of WaggleDanceMachine.ts. -/
def initialEdges : List DAGEdge := []

/-- findNodesWithNoIncomingEdges of WaggleDanceMachine.ts: collect every
edge target id, then keep the nodes whose id is not among them, in node
order. -/
def findNodesWithNoIncomingEdges (dag : DAG) : List DAGNode :=
  let nodesWithIncomingEdges := dag.edges.map (fun edge => edge.tId)
  dag.nodes.filter (fun node => !(nodesWithIncomingEdges.contains node.id))

/-- The hookup performed right after planTasks returns: prepend the initial
(root) node and append one edge from the root to each node with no incoming
edge. -/
def hookupRoot (goal : String) (dag : DAG) : DAG :=
  let hookupEdges :=
    (findNodesWithNoIncomingEdges dag).map (fun node => DAGEdge.mk rootPlanId node.id)
  ⟨initialNodes goal ++ dag.nodes, initialEdges ++ dag.edges ++ hookupEdges⟩

/-- The resume guard of WaggleDanceMachine.run:
`initDAG.edges.length > 0 && isDonePlanning`. -/
def skipsPlanning (initDAG : DAG) (isDonePlanning : Bool) : Bool :=
  decide (0 < initDAG.edges.length) && isDonePlanning

/-- The planning phase of WaggleDanceMachine.run: either reuse the supplied
graph (resume) or take the planner output and hook up the root.
`plannerOutput` stands for the graph the external planTasks call returns. -/
def runPlanningPhase (goal : String) (initDAG : DAG) (isDonePlanning : Bool)
    (plannerOutput : DAG) : DAG :=
  if skipsPlanning initDAG isDonePlanning then initDAG
  else hookupRoot goal plannerOutput

/-- isGoalReached of WaggleDanceMachine.ts. -/
def isGoalReached (dag : DAG) (completedTasks : List String) : Bool :=
  dag.nodes.all (fun node => completedTasks.contains node.id)

/-! Orchestrator state.  `Set<string>.add` becomes `addCompleted`,
`Record<string, string>` assignment becomes `insertResult`, and the packets
handed to sendChainPacket are accumulated with their node id. -/

/-- JavaScript `Set.add`: append the id unless already present. -/
def addCompleted (completedTasks : List String) (id : String) : List String :=
  if completedTasks.contains id then completedTasks else completedTasks ++ [id]

/-- JavaScript record assignment `taskResults[id] = value` (overwrite). -/
def insertResult (taskResults : List (String × String)) (id value : String) :
    List (String × String) :=
  if taskResults.any (fun pair => pair.fst == id) then
    taskResults.map (fun pair => if pair.fst == id then (id, value) else pair)
  else taskResults ++ [(id, value)]

inductive FirstTaskState where
  | notStarted
  | started
  | done
  | error
  deriving DecidableEq, Repr

/-- The mutable run state of WaggleDanceMachine.run, as observed by one
iteration of the scheduling loop. -/
structure LoopState where
  toDoNodes : List DAGNode
  completedTasks : List String
  taskResults : List (String × String)
  firstTaskState : FirstTaskState
  firstTaskId : Option String
  aborted : Bool
  packets : List (AgentPacket × String)
  deriving DecidableEq, Repr

/-- `toDoNodes.filter((node) => !completedTasks.has(node.id))`. -/
def pendingTasks (st : LoopState) : List DAGNode :=
  st.toDoNodes.filter (fun node => !(st.completedTasks.contains node.id))

/-- The per-task readiness test of the scheduling loop: every edge whose
target is the task has a completed source. -/
def isTaskReady (dag : DAG) (completedTasks : List String) (task : DAGNode) : Bool :=
  (dag.edges.filter (fun edge => edge.tId == task.id)).all
    (fun edge => completedTasks.contains edge.sId)

/-- `pendingTasks.filter((task) => edges-into-task all completed)`. -/
def pendingCurrentDagLayerTasks (dag : DAG) (st : LoopState) : List DAGNode :=
  (pendingTasks st).filter (fun task => isTaskReady dag st.completedTasks task)

/-- What one iteration of the scheduling loop does: throw, sleep, or
dispatch exactly one task. -/
inductive LoopAction where
  | thrown
  | sleep
  | dispatch (task : DAGNode)
  deriving DecidableEq, Repr

/-- One iteration of the `while (!isGoalReached(...))` loop of
WaggleDanceMachine.run: abort throws; an empty pending set or a started
optimistic first task sleeps; otherwise the first ready pending task is
dispatched (`splice(0, 1)[0]`), and an empty ready list throws `no task`. -/
def loopIteration (dag : DAG) (st : LoopState) : LoopAction :=
  if st.aborted then .thrown
  else if (pendingTasks st).isEmpty || st.firstTaskState == FirstTaskState.started then
    .sleep
  else
    match (pendingCurrentDagLayerTasks dag st).head? with
    | some task => .dispatch task
    | none => .thrown

/-- The success path of the fire-and-forget dispatch unit (lines after the
catch): record the result, then add the id to completedTasks. -/
def onTaskSuccessCallback (st : LoopState) (task : DAGNode) (result : String) :
    LoopState :=
  { st with taskResults := insertResult st.taskResults task.id result,
            completedTasks := addCompleted st.completedTasks task.id }

/-- The catch path of the fire-and-forget dispatch unit: send a warn-severity
error packet for the task and return, touching no other state. -/
def onTaskFailureCallback (st : LoopState) (task : DAGNode) (message : String) :
    LoopState :=
  { st with packets := st.packets ++ [(AgentPacket.error .warn message, task.id)] }

/-- Outcome of the awaited executeTask call: a returned value (a string,
where the empty string models a falsy result) or a thrown error. -/
inductive ExecOutcome where
  | value (result : String)
  | thrown (message : String)
  deriving DecidableEq, Repr

/-- startFirstTask as defined inside WaggleDanceMachine.run: mark the state
started, record the claimed task id, add it to completedTasks pre-emptively,
then (unless already aborted) run the task; a throw sends a warn packet and
marks the attempt errored, a falsy result sends a warn packet and marks it
errored, a proper result is stored, a done packet is sent and the attempt is
marked done; if the abort signal was already set nothing runs and the
attempt is marked errored. -/
def WDM_startFirstTask (st : LoopState) (task : DAGNode) (dag : DAG)
    (exec : ExecOutcome) : LoopState :=
  let st1 : LoopState :=
    { st with firstTaskState := .started,
              firstTaskId := some task.id,
              completedTasks := addCompleted st.completedTasks task.id }
  if !st1.aborted then
    match exec with
    | .thrown message =>
        { st1 with
            packets := st1.packets ++ [(AgentPacket.error .warn message, task.id)],
            firstTaskState := .error }
    | .value result =>
        let st2 : LoopState :=
          { st1 with taskResults := insertResult st1.taskResults task.id result }
        match dag.nodes.find? (fun node => task.id == node.id) with
        | none => { st2 with firstTaskState := .error }
        | some node =>
            if result == "" then
              { st2 with
                  packets :=
                    st2.packets ++ [(AgentPacket.error .warn "no task result", node.id)],
                  firstTaskState := .error }
            else
              { st2 with
                  packets := st2.packets ++ [(AgentPacket.done result, node.id)],
                  firstTaskState := .done }
  else { st1 with firstTaskState := .error }

/-- State touched by TaskExecutor.startFirstTask: the shared completed-task
set, the injected packets, the first-task promise (resolved or rejected) and
the run's abort controller. -/
structure TEState where
  completedTasks : List String
  packets : List (AgentPacket × String)
  resolvedWith : Option AgentPacket
  rejectedWith : Option String
  aborted : Bool
  deriving DecidableEq, Repr

/-- Outcome of the awaited executeTask call inside TaskExecutor (its result
is itself an AgentPacket). -/
inductive TEOutcome where
  | value (result : AgentPacket)
  | thrown (message : String)
  deriving DecidableEq, Repr

/-- TaskExecutor.startFirstTask: add the task id to completedTasks first,
then check the abort signal; if aborted, reject the first-task promise and
abort; otherwise run the task, resolving and injecting the result packet on
success, and on a throw injecting a warn error packet, rejecting the
promise and calling abortController.abort(). -/
def TE_startFirstTask (st : TEState) (task : DAGNode) (exec : TEOutcome) : TEState :=
  let st1 : TEState := { st with completedTasks := addCompleted st.completedTasks task.id }
  if !st1.aborted then
    match exec with
    | .value result =>
        { st1 with resolvedWith := some result,
                   packets := st1.packets ++ [(result, task.id)] }
    | .thrown message =>
        { st1 with
            packets := st1.packets ++ [(AgentPacket.error .warn message, task.id)],
            rejectedWith := some message,
            aborted := true }
  else
    { st1 with rejectedWith := some "Signal aborted", aborted := true }

/-! A step relation over the run state, covering everything that can happen
between two looks at the state: a scheduling-loop iteration (sleep or
dispatch, which removes the task from toDoNodes), the asynchronous
completion callbacks of a dispatched unit, the asynchronous resolution of
the optimistic first task, and an external abort. -/

inductive WStep (dag : DAG) : LoopState → LoopState → Prop
  | sleepStep (st : LoopState) :
      loopIteration dag st = .sleep → WStep dag st st
  | dispatchStep (st : LoopState) (task : DAGNode) :
      loopIteration dag st = .dispatch task →
      WStep dag st { st with toDoNodes := st.toDoNodes.erase task }
  | successStep (st : LoopState) (task : DAGNode) (result : String) :
      WStep dag st (onTaskSuccessCallback st task result)
  | failureStep (st : LoopState) (task : DAGNode) (message : String) :
      WStep dag st (onTaskFailureCallback st task message)
  | firstTaskStep (st : LoopState) (s : FirstTaskState) :
      WStep dag st { st with firstTaskState := s }
  | abortStep (st : LoopState) :
      WStep dag st { st with aborted := true }

/-! Shared helper lemmas. -/

theorem mem_addCompleted_self (completedTasks : List String) (id : String) :
    id ∈ addCompleted completedTasks id := by
  by_cases h : id ∈ completedTasks <;> simp [addCompleted, h]

theorem mem_addCompleted_of_mem (completedTasks : List String) (id a : String)
    (h : a ∈ completedTasks) : a ∈ addCompleted completedTasks id := by
  by_cases hc : id ∈ completedTasks <;> simp [addCompleted, hc, h]

theorem WStep_completed_mono {dag : DAG} {st st' : LoopState}
    (h : WStep dag st st') : ∀ a ∈ st.completedTasks, a ∈ st'.completedTasks := by
  cases h with
  | sleepStep _ => intro a ha; exact ha
  | dispatchStep task _ => intro a ha; exact ha
  | successStep task result =>
      intro a ha
      exact mem_addCompleted_of_mem _ _ _ ha
  | failureStep task message => intro a ha; exact ha
  | firstTaskStep s => intro a ha; exact ha
  | abortStep => intro a ha; exact ha

theorem WSteps_completed_mono {dag : DAG} {st st' : LoopState}
    (h : Relation.ReflTransGen (WStep dag) st st') :
    ∀ a ∈ st.completedTasks, a ∈ st'.completedTasks := by
  induction h with
  | refl => intro a ha; exact ha
  | tail _ hstep ih =>
      intro a ha
      exact WStep_completed_mono hstep a (ih a ha)

theorem dispatch_mem_layer {dag : DAG} {st : LoopState} {task : DAGNode}
    (h : loopIteration dag st = .dispatch task) :
    task ∈ pendingCurrentDagLayerTasks dag st := by
  unfold loopIteration at h
  by_cases hab : st.aborted = true
  · simp [hab] at h
  · simp only [Bool.not_eq_true] at hab
    simp only [hab, if_false, Bool.false_eq_true] at h
    by_cases hsl : ((pendingTasks st).isEmpty || st.firstTaskState == FirstTaskState.started) = true
    · simp [hsl] at h
    · simp only [hsl, if_false, Bool.false_eq_true] at h
      cases hh : (pendingCurrentDagLayerTasks dag st).head? with
      | none => simp [hh] at h
      | some task' =>
          simp only [hh] at h
          cases h
          exact List.mem_of_mem_head? (by simp [hh])

theorem dispatch_not_completed {dag : DAG} {st : LoopState} {task : DAGNode}
    (h : loopIteration dag st = .dispatch task) :
    task.id ∉ st.completedTasks := by
  have hmem := dispatch_mem_layer h
  unfold pendingCurrentDagLayerTasks pendingTasks at hmem
  have h1 := (List.mem_filter.mp hmem).1
  have h2 := (List.mem_filter.mp h1).2
  simpa using h2

theorem dispatch_ready {dag : DAG} {st : LoopState} {task : DAGNode}
    (h : loopIteration dag st = .dispatch task) :
    isTaskReady dag st.completedTasks task = true := by
  have hmem := dispatch_mem_layer h
  unfold pendingCurrentDagLayerTasks at hmem
  exact (List.mem_filter.mp hmem).2

theorem listFindLast_eq_none {α : Type} (p : α → Bool) (l : List α) :
    listFindLast p l = none ↔ ∀ a ∈ l, p a = false := by
  induction l with
  | nil => simp [listFindLast]
  | cons a l ih =>
      constructor
      · intro h
        unfold listFindLast at h
        cases hl : listFindLast p l with
        | some b => simp [hl] at h
        | none =>
            simp only [hl] at h
            by_cases hp : p a = true
            · simp [hp] at h
            · intro q hq
              rcases List.mem_cons.mp hq with hq | hq
              · subst hq; simpa using hp
              · exact (ih.mp hl) q hq
      · intro h
        unfold listFindLast
        have hl : listFindLast p l = none := ih.mpr (fun q hq => h q (List.mem_cons_of_mem a hq))
        simp [hl, h a (List.mem_cons_self a l)]

theorem listFindLast_eq_some {α : Type} (p : α → Bool) (l : List α) (a : α)
    (h : listFindLast p l = some a) :
    ∃ l1 l2, l = l1 ++ a :: l2 ∧ p a = true ∧ ∀ q ∈ l2, p q = false := by
  induction l with
  | nil => simp [listFindLast] at h
  | cons b l ih =>
      unfold listFindLast at h
      cases hl : listFindLast p l with
      | some c =>
          simp only [hl] at h
          cases h
          obtain ⟨l1, l2, heq, hp, hrest⟩ := ih hl
          exact ⟨b :: l1, l2, by simp [heq], hp, hrest⟩
      | none =>
          simp only [hl] at h
          by_cases hp : p b = true
          · simp only [hp, if_true] at h
            cases h
            exact ⟨[], l, rfl, hp, (listFindLast_eq_none p l).mp hl⟩
          · simp [hp] at h

/-! Concrete fixtures used by witnesses and counterexamples. -/

def nodeA : DAGNode := ⟨"1-0", "task A", "act", "context"⟩

def nodeB : DAGNode := ⟨"1-1", "task B", "act", "context"⟩

def dagAB : DAG := ⟨[nodeA, nodeB], [⟨"1-0", "1-1"⟩]⟩

def stReadyB : LoopState :=
  ⟨[nodeB], [rootPlanId, "1-0"], [], .notStarted, none, false, []⟩

def stStarted : LoopState :=
  ⟨[nodeB], [rootPlanId, "1-0"], [], .started, some "1-0", false, []⟩

def stFresh : LoopState :=
  ⟨[nodeA, nodeB], [rootPlanId], [], .notStarted, none, false, []⟩

def stDispatchedB : LoopState :=
  ⟨[], [rootPlanId, "1-0"], [("1-0", "result A")], .done, some "1-0", false, []⟩

def nodeOnly : DAG := ⟨[nodeA], []⟩

def teAborted : TEState := ⟨[rootPlanId], [], none, none, true⟩

def teFresh : TEState := ⟨[], [], none, none, false⟩

/-! Claims. -/

/-- Claim C1: the scheduling loop dispatches a node only if every edge of
the graph whose target is that node has its source id in completedTasks at
the moment of dispatch; a node whose predecessor set is not contained in
completedTasks is never dispatched. -/
theorem C1_dispatch_only_when_predecessors_completed
    (dag : DAG) (st : LoopState) (task : DAGNode)
    (h : loopIteration dag st = LoopAction.dispatch task) :
    ∀ e ∈ dag.edges, e.tId = task.id → e.sId ∈ st.completedTasks := by
  intro e he het
  have hr := dispatch_ready h
  unfold isTaskReady at hr
  have hmem : e ∈ dag.edges.filter (fun edge => edge.tId == task.id) :=
    List.mem_filter.mpr ⟨he, by simp [het]⟩
  have hall := (List.all_eq_true.mp hr) e hmem
  simpa using hall

/-- Witness for C1 at a concrete dispatch: with edge 1-0 → 1-1 and node 1-1
selected, the source id 1-0 is completed. -/
theorem C1_witness : ("1-0" : String) ∈ stReadyB.completedTasks :=
  C1_dispatch_only_when_predecessors_completed dagAB stReadyB nodeB (by decide)
    ⟨"1-0", "1-1"⟩ (by decide) rfl

/-- Claim C9: while the optimistic first task is in state started, a
scheduling-loop iteration never dispatches any node; unless the run is
aborted it sleeps and re-checks. -/
theorem C9_started_first_task_blocks_dispatch
    (dag : DAG) (st : LoopState) (h : st.firstTaskState = FirstTaskState.started) :
    (st.aborted = false → loopIteration dag st = LoopAction.sleep) ∧
    ∀ task : DAGNode, loopIteration dag st ≠ LoopAction.dispatch task := by
  constructor
  · intro hab
    unfold loopIteration
    simp [hab, h]
  · intro task hne
    unfold loopIteration at hne
    by_cases hab : st.aborted = true
    · simp [hab] at hne
    · simp only [Bool.not_eq_true] at hab
      simp [hab, h] at hne

/-- Witness for C9: with the first task started and a ready node pending,
the iteration sleeps. -/
theorem C9_witness : loopIteration dagAB stStarted = LoopAction.sleep :=
  (C9_started_first_task_blocks_dispatch dagAB stStarted rfl).1 rfl

/-- Claim C3: findFinishPacket returns the last packet whose type is in the
finishing set (a finishing packet after which no finishing-typed packet
occurs); when the sequence holds no finishing packet it returns the
synthetic fatal error packet. -/
theorem C3_findFinishPacket_last_finishing (packets : List AgentPacket) :
    ((∃ q ∈ packets, isAgentPacketFinishedType q.type = true) →
      isAgentPacketFinishedType (findFinishPacket packets).type = true ∧
      ∃ l1 l2, packets = l1 ++ findFinishPacket packets :: l2 ∧
        ∀ q ∈ l2, isAgentPacketFinishedType q.type = false) ∧
    ((∀ q ∈ packets, isAgentPacketFinishedType q.type = false) →
      findFinishPacket packets =
        AgentPacket.error .fatal
          ("No result packet found in " ++ toString packets.length ++ " packets")) := by
  constructor
  · intro hex
    unfold findFinishPacket
    cases hl : listFindLast (fun packet => isAgentPacketFinishedType packet.type) packets with
    | none =>
        obtain ⟨q, hq, hqt⟩ := hex
        have hfalse := (listFindLast_eq_none _ _).mp hl q hq
        rw [hqt] at hfalse
        exact absurd hfalse (by simp)
    | some p =>
        obtain ⟨l1, l2, heq, hp, hrest⟩ := listFindLast_eq_some _ _ _ hl
        exact ⟨hp, l1, l2, heq, hrest⟩
  · intro hall
    unfold findFinishPacket
    have hnone :
        listFindLast (fun packet => isAgentPacketFinishedType packet.type) packets = none :=
      (listFindLast_eq_none _ _).mpr hall
    simp [hnone]

/-- Witness for C3 at the spec's own test vector: a sequence holding only a
handleToolStart packet yields the synthesized fatal error finish packet. -/
theorem C3_witness :
    findFinishPacket [AgentPacket.handleToolStart "tool" "input"] =
      AgentPacket.error .fatal "No result packet found in 1 packets" :=
  (C3_findFinishPacket_last_finishing [AgentPacket.handleToolStart "tool" "input"]).2
    (by decide)

/-- Modelled from the spec: the full status table claim C4 asserts —
terminal-success to done, terminal-failure (including handleRetrieverError)
to error, requestHumanInput to wait, idle and absence to idle, everything
else to working. -/
def claimedStatusTable : Option AgentPacketType → TaskStatus
  | some .done | some .handleAgentEnd | some .handleChainEnd => .done
  | some .error | some .handleLLMError | some .handleChainError
  | some .handleToolError | some .handleAgentError
  | some .handleRetrieverError => .error
  | some .requestHumanInput => .wait
  | some .idle | none => .idle
  | _ => .working

/-- The closed packet-tag set handled by the status-mapper switch. -/
def allAgentPacketTypes : List AgentPacketType :=
  [.handleAgentEnd, .done, .error, .handleChainError, .handleLLMError,
   .handleRetrieverError, .handleAgentError, .handleLLMStart, .t, .handleLLMEnd,
   .handleChainEnd, .handleChainStart, .handleToolEnd, .handleToolStart,
   .handleAgentAction, .handleText, .requestHumanInput, .starting, .working,
   .idle, .handleToolError, .handleRetrieverStart, .handleRetrieverEnd,
   .handleChatModelStart, .handleChatModelEnd]

/-- Claim C4 evidence: handleRetrieverError — listed by the code itself among
the finished (terminal) packet types — is mapped by mapPacketTypeToStatus to
working, not to error as the claim's table demands; on every other tag (and
on absence) the code agrees with the claimed table. -/
theorem C4_handleRetrieverError_maps_to_working :
    mapPacketTypeToStatus (some AgentPacketType.handleRetrieverError) =
      TaskStatus.working ∧
    claimedStatusTable (some AgentPacketType.handleRetrieverError) =
      TaskStatus.error ∧
    isAgentPacketFinishedType AgentPacketType.handleRetrieverError = true ∧
    ((none :: allAgentPacketTypes.map some).filter
        (fun ty => ty != some AgentPacketType.handleRetrieverError)).all
      (fun ty => mapPacketTypeToStatus ty == claimedStatusTable ty) = true := by
  decide

/-- Claim C5: hooking up the root after planning yields exactly the plan
graph with the root node prepended to the node sequence and, for exactly the
plan nodes that no plan edge targets, one added edge from the root id to
that node; all original nodes and edges are preserved. -/
theorem C5_hookup_shape (goal : String) (g : DAG) :
    (hookupRoot goal g).nodes = initialNodes goal ++ g.nodes ∧
    (hookupRoot goal g).edges =
      g.edges ++
        (findNodesWithNoIncomingEdges g).map (fun node => DAGEdge.mk rootPlanId node.id) ∧
    ∀ n : DAGNode, n ∈ findNodesWithNoIncomingEdges g ↔
      (n ∈ g.nodes ∧ ∀ e ∈ g.edges, e.tId ≠ n.id) := by
  refine ⟨rfl, rfl, ?_⟩
  intro n
  simp only [findNodesWithNoIncomingEdges, List.mem_filter, Bool.not_eq_eq_eq_not,
    Bool.not_true]
  constructor
  · rintro ⟨hmem, hnoin⟩
    refine ⟨hmem, ?_⟩
    intro e he heq
    have : n.id ∈ g.edges.map (fun edge => edge.tId) := List.mem_map.mpr ⟨e, he, heq⟩
    simp [this] at hnoin
  · rintro ⟨hmem, hnoin⟩
    refine ⟨hmem, ?_⟩
    have hnm : n.id ∉ g.edges.map (fun edge => edge.tId) := by
      intro hcon
      obtain ⟨e, he, heq⟩ := List.mem_map.mp hcon
      exact hnoin e he heq
    simpa using hnm

/-- Witness for C5 on a concrete graph: the hooked-up node list is the root
node followed by the plan nodes. -/
theorem C5_witness :
    (hookupRoot "the goal" dagAB).nodes = initialNodes "the goal" ++ dagAB.nodes :=
  (C5_hookup_shape "the goal" dagAB).1

/-- Claim C8 counterexample: a non-empty initial graph (one node, no edges)
with isDonePlanning set does not skip planning — the resume guard tests the
edge count — and the planning phase does not use the supplied graph. -/
theorem C8_counterexample :
    nodeOnly.nodes ≠ [] ∧ skipsPlanning nodeOnly true = false ∧
    runPlanningPhase "goal" nodeOnly true nodeOnly ≠ nodeOnly := by
  decide

/-- Claim C8 (amended): if run is invoked with an initial graph holding at
least one edge and isDonePlanning set, the planner is skipped and the
supplied graph is used, as is, as the execution graph. -/
theorem C8_amended_resume_skips_planner (initDAG plannerOutput : DAG) (goal : String)
    (h : initDAG.edges ≠ []) :
    skipsPlanning initDAG true = true ∧
    runPlanningPhase goal initDAG true plannerOutput = initDAG := by
  have hlen : 0 < initDAG.edges.length := List.length_pos.mpr h
  constructor
  · simp [skipsPlanning, hlen]
  · simp [runPlanningPhase, skipsPlanning, hlen]

/-- Witness for C8 (amended) on a graph with one edge. -/
theorem C8_witness : skipsPlanning dagAB true = true :=
  (C8_amended_resume_skips_planner dagAB nodeOnly "goal" (by decide)).1

/-- Claim C2 evidence: the catch branch of the fire-and-forget dispatch unit
leaves completedTasks, taskResults and the abort flag untouched — after a
warn-severity failure of node 1-1 its id is not a member of completedTasks,
though the run is not aborted. -/
theorem C2_warn_failure_not_recorded :
    (∀ (st : LoopState) (task : DAGNode) (message : String),
      (onTaskFailureCallback st task message).completedTasks = st.completedTasks ∧
      (onTaskFailureCallback st task message).taskResults = st.taskResults ∧
      (onTaskFailureCallback st task message).aborted = st.aborted) ∧
    ("1-1" : String) ∉
      (onTaskFailureCallback stDispatchedB nodeB "executeTask threw").completedTasks ∧
    (onTaskFailureCallback stDispatchedB nodeB "executeTask threw").packets =
      [(AgentPacket.error .warn "executeTask threw", "1-1")] := by
  refine ⟨fun st task message => ⟨rfl, rfl, rfl⟩, ?_, ?_⟩ <;> decide

/-- Claim C10: TaskExecutor.startFirstTask adds the claimed id to
completedTasks before checking the abort signal; when the signal is already
set the task never runs — the promise is rejected, nothing is resolved, no
packet is injected — yet the id is a member of completedTasks. -/
theorem C10_preemptive_claim_survives_abort (st : TEState) (task : DAGNode)
    (exec : TEOutcome) (h : st.aborted = true) :
    task.id ∈ (TE_startFirstTask st task exec).completedTasks ∧
    (TE_startFirstTask st task exec).resolvedWith = st.resolvedWith ∧
    (TE_startFirstTask st task exec).packets = st.packets ∧
    (TE_startFirstTask st task exec).rejectedWith = some "Signal aborted" := by
  unfold TE_startFirstTask
  simp [h, mem_addCompleted_self]

/-- Witness for C10: with the abort signal already set, the claimed id 1-0
is still recorded as completed. -/
theorem C10_witness :
    ("1-0" : String) ∈
      (TE_startFirstTask teAborted nodeA (TEOutcome.thrown "x")).completedTasks :=
  (C10_preemptive_claim_survives_abort teAborted nodeA (TEOutcome.thrown "x") rfl).1

/-- Claim C7 counterexample: in TaskExecutor.startFirstTask a failing
optimistic first task calls abortController.abort(), so the abort signal IS
triggered, contradicting the claim that it is not. -/
theorem C7_counterexample :
    teFresh.aborted = false ∧
    (TE_startFirstTask teFresh nodeA (TEOutcome.thrown "executeTask failed")).aborted
      = true := by
  decide

/-- Claim C7 (amended): when the optimistic first task fails, a warn-severity
error packet is emitted for the node and the attempt is marked failed; in
WaggleDanceMachine.run the abort signal stays untriggered (and the loop is no
longer blocked by a started first task), while TaskExecutor.startFirstTask
additionally triggers the abort signal. -/
theorem C7_amended_warn_and_no_abort_in_machine
    (st : LoopState) (task : DAGNode) (dag : DAG) (message : String)
    (h : st.aborted = false) :
    (WDM_startFirstTask st task dag (.thrown message)).aborted = false ∧
    (WDM_startFirstTask st task dag (.thrown message)).firstTaskState =
      FirstTaskState.error ∧
    (WDM_startFirstTask st task dag (.thrown message)).packets =
      st.packets ++ [(AgentPacket.error .warn message, task.id)] ∧
    ∀ te : TEState,
      (TE_startFirstTask te task (TEOutcome.thrown message)).aborted = true := by
  refine ⟨?_, ?_, ?_, ?_⟩
  · unfold WDM_startFirstTask
    simp [h]
  · unfold WDM_startFirstTask
    simp [h]
  · unfold WDM_startFirstTask
    simp [h]
  · intro te
    unfold TE_startFirstTask
    cases hte : te.aborted <;> simp [hte]

/-- Witness for C7 (amended): a concrete failing first task in the machine
leaves the abort flag clear. -/
theorem C7_witness :
    (WDM_startFirstTask stFresh nodeA dagAB (ExecOutcome.thrown "boom")).aborted
      = false :=
  (C7_amended_warn_and_no_abort_in_machine stFresh nodeA dagAB "boom" rfl).1

/-- The optimistic claim lands in completedTasks whatever the outcome of the
attempt (used for C6). -/
theorem WDM_startFirstTask_claims (st : LoopState) (task : DAGNode) (dag : DAG)
    (exec : ExecOutcome) :
    task.id ∈ (WDM_startFirstTask st task dag exec).completedTasks := by
  unfold WDM_startFirstTask
  have hm := mem_addCompleted_self st.completedTasks task.id
  by_cases hab : st.aborted = true
  · simp [hab, hm]
  · simp only [Bool.not_eq_true] at hab
    cases exec with
    | thrown message => simp [hab, hm]
    | value result =>
        simp only [hab, Bool.not_false, if_true]
        cases hfind : dag.nodes.find? (fun node => task.id == node.id) with
        | none => simp [hfind, hm]
        | some node =>
            by_cases hres : (result == "") = true <;> simp [hfind, hres, hm]

/-- Claim C6: once a node id is claimed by the optimistic first task (which
adds it to completedTasks pre-emptively), no state reachable by any sequence
of loop iterations, completion callbacks, first-task resolutions or aborts
ever dispatches that id again — regardless of the attempt's outcome. -/
theorem C6_claimed_id_never_redispatched (dag : DAG) (st0 : LoopState)
    (task0 : DAGNode) (exec : ExecOutcome) (st' : LoopState)
    (hsteps : Relation.ReflTransGen (WStep dag) (WDM_startFirstTask st0 task0 dag exec) st')
    (task : DAGNode) (hdisp : loopIteration dag st' = LoopAction.dispatch task) :
    task.id ≠ task0.id := by
  have hclaim := WDM_startFirstTask_claims st0 task0 dag exec
  have hmem : task0.id ∈ st'.completedTasks := WSteps_completed_mono hsteps _ hclaim
  have hnot : task.id ∉ st'.completedTasks := dispatch_not_completed hdisp
  intro heq
  rw [heq] at hnot
  exact hnot hmem

/-- Witness for C6: after a failed optimistic attempt on node 1-0, the loop
dispatches node 1-1, whose id differs from the claimed one. -/
theorem C6_witness : nodeB.id ≠ nodeA.id :=
  C6_claimed_id_never_redispatched dagAB stFresh nodeA (ExecOutcome.thrown "x")
    (WDM_startFirstTask stFresh nodeA dagAB (ExecOutcome.thrown "x"))
    Relation.ReflTransGen.refl nodeB (by decide)

end WaggleDance
